import Mathlib

/-!
Verification of the training/evaluation harness in `unet/model.py` of the
pytorch-UNet repository (class `Model`).

The embedding is a shallow one.  Scalar tensor values (losses, inputs,
outputs) are modelled as rationals; the external collaborators — Network
forward pass, Loss, Optimizer update, DataLoader batching — are opaque
functions supplied in a `TrainerCfg`, exactly as the spec treats them
("opaque external collaborators").  A dataset is modelled as the sequence of
batches the `DataLoader` yields for it.  File-system side effects
(`torch.save`, `logger.to_csv`, `io.imsave`) are recorded as an event trace.
Python's runtime failures that the control flow of `model.py` can actually
reach (reading a never-assigned local name, `del` of an unbound local,
indexing an empty list, dividing by zero) are modelled with `PyErr`.
-/

/-- Trainable parameters of the Network, abstracted to a list of scalars. -/
abbrev Params := List ℚ

/-- Python runtime errors reachable from the control flow of `model.py`:
`NameError`/`UnboundLocalError` (reading or deleting a name that was never
bound), `ZeroDivisionError`, and `IndexError`. -/
inductive PyErr where
  | nameError (n : String)
  | zeroDivisionError
  | indexError
deriving DecidableEq

/-- State of the Network object: trainable parameters plus the train/eval
mode flag toggled by `net.train(b)`. -/
structure Network where
  params : Params
  training : Bool
deriving DecidableEq

/-- `net.train(b)`: set the train/eval mode flag, leaving parameters alone. -/
def Network.train (net : Network) (b : Bool) : Network :=
  { net with training := b }

/-- The external collaborators wired into the `Model` at construction,
abstracted as pure functions.  `β` is the type of one batch yielded by
`DataLoader`.  `forward p X` is the Network output on input `X` at
parameters `p`; `lossFn p b` is the scalar value of
`self.loss(self.net(X_batch), y_batch)` on batch `b` at parameters `p`;
`optStep p b` is the new parameter vector after
`training_loss.backward(); self.optimizer.step()` on batch `b`. -/
structure TrainerCfg (β : Type) where
  forward : Params → ℚ → ℚ
  lossFn : Params → β → ℚ
  optStep : Params → β → Params

/-- The dictionary returned by `Model.fit_epoch` (line 77): a single entry
under the key `train_loss`. -/
structure TrainLogs where
  train_loss : ℚ
deriving DecidableEq

/-- The dictionary returned by `Model.val_epoch` (line 98): the entry under
the key `val_loss`.  The default metric aggregator `MetricList({})`
contributes no further entries, so it is not modelled. -/
structure ValLogs where
  val_loss : ℚ
deriving DecidableEq

instance exceptDecEq {ε α : Type} [DecidableEq ε] [DecidableEq α] :
    DecidableEq (Except ε α)
  | .error e, .error f =>
      decidable_of_iff (e = f) (by constructor <;> (intro h; cases h; rfl))
  | .error _, .ok _ => isFalse (by intro h; cases h)
  | .ok _, .error _ => isFalse (by intro h; cases h)
  | .ok a, .ok b =>
      decidable_of_iff (a = b) (by constructor <;> (intro h; cases h; rfl))

/-- Python division with Python's own guard: dividing by zero raises
`ZeroDivisionError`. -/
def pyDiv (x : ℚ) (d : ℕ) : Except PyErr ℚ :=
  if d = 0 then .error .zeroDivisionError else .ok (x / d)

/-- The batch loop of `Model.fit_epoch` (lines 60-71).  State carried by the
loop: current parameters, `epoch_running_loss`, and the number of batches
processed so far (`batch_idx` is bound iff the count is positive, and then
equals count - 1).  Per batch: the loss is computed at the current
parameters (line 68), then `backward()`/`optimizer.step()` update the
parameters (lines 69-70), then the scalar loss is accumulated (line 71). -/
def fitLoopGo {β : Type} (cfg : TrainerCfg β) :
    List β → Params → ℚ → ℕ → Params × ℚ × ℕ
  | [], p, acc, cnt => (p, acc, cnt)
  | b :: bs, p, acc, cnt =>
      fitLoopGo cfg bs (cfg.optStep p b) (acc + cfg.lossFn p b) (cnt + 1)

/-- `Model.fit_epoch` (lines 55-79).  `self.net.train(True)` at entry,
the batch loop, `self.net.train(False)` at line 73; then
`del X_batch, y_batch` (line 75), which raises `UnboundLocalError` when the
loop ran zero times and the locals were never bound; then
`epoch_running_loss / (batch_idx + 1)` (line 77), Python-guarded division. -/
def Model.fit_epoch {β : Type} (cfg : TrainerCfg β) (net : Network)
    (batches : List β) : Network × Except PyErr TrainLogs :=
  let t := fitLoopGo cfg batches (net.train true).params 0 0
  (⟨t.1, false⟩,
    if t.2.2 = 0 then .error (.nameError "X_batch")
    else
      match pyDiv t.2.1 (t.2.2 - 1 + 1) with
      | .error e => .error e
      | .ok q => .ok ⟨q⟩)

/-- The batch loop of `Model.val_epoch` (lines 86-94): same accumulation but
no gradient computation and no optimizer step, so the parameters are only
read, never written.  The metric aggregator calls (lines 83, 94, 99) are the
default empty `MetricList({})` and contribute nothing observable. -/
def valLoopGo {β : Type} (cfg : TrainerCfg β) (p : Params) :
    List β → ℚ → ℕ → ℚ × ℕ
  | [], acc, cnt => (acc, cnt)
  | b :: bs, acc, cnt => valLoopGo cfg p bs (acc + cfg.lossFn p b) (cnt + 1)

/-- `Model.val_epoch` (lines 81-101).  `self.net.train(False)` at entry; the
loop; `del X_batch, y_batch` (line 96) raising `UnboundLocalError` on an
empty dataset; then `running_val_loss / (batch_idx + 1)` (line 98). -/
def Model.val_epoch {β : Type} (cfg : TrainerCfg β) (net : Network)
    (batches : List β) : Network × Except PyErr ValLogs :=
  let netF := net.train false
  let t := valLoopGo cfg netF.params batches 0 0
  (netF,
    if t.2 = 0 then .error (.nameError "X_batch")
    else
      match pyDiv t.1 (t.2 - 1 + 1) with
      | .error e => .error e
      | .ok q => .ok ⟨q⟩)

/-- A Python value appearing in the variadic `*rest` part of a sample:
either a string (a per-sample filename identifier) or a non-string value
(e.g. a target tensor). -/
inductive PyVal where
  | str (s : String)
  | tensor (x : ℚ)
deriving DecidableEq

/-- One sample yielded (at `batch_size=1`) by the dataset handed to
`Model.predict_dataset`: the input plus the variadic `*rest` columns.  With
batch size 1 the batched column `rest[0]` collapses to the sample's own
value, so `rest[0][0]` reads the head of this list. -/
structure PredSample where
  X : ℚ
  rest : List PyVal
deriving DecidableEq

/-- Python's `str.zfill`: left-pad with `'0'` to at least the given width. -/
def zfill (s : String) (w : ℕ) : String :=
  if w ≤ s.length then s
  else String.mk (List.replicate (w - s.length) '0') ++ s

/-- The sample loop of `Model.predict_dataset` (lines 161-170).  Per sample:
`rest[0][0]` (line 162) raises `IndexError` when the sample carried no
columns beyond the input; a string there is used as the filename, otherwise
`'%s.png' % str(batch_idx + 1).zfill(3)` (line 165).  Returns the filenames
written in order, plus the error that stopped the loop, if any (files
written before the error remain written). -/
def predictLoop : List PredSample → ℕ → List String × Option PyErr
  | [], _ => ([], none)
  | s :: ss, idx =>
    match s.rest with
    | [] => ([], some .indexError)
    | v :: _ =>
      let name :=
        match v with
        | .str nm => nm
        | .tensor _ => zfill (Nat.repr (idx + 1)) 3 ++ ".png"
      let r := predictLoop ss (idx + 1)
      (name :: r.1, r.2)

/-- Result of `Model.predict_dataset`: the Network (mode was toggled), the
image files written, and the error that interrupted the loop, if any.  The
content of each image (channel 1 of the forward output, line 170) is opaque
and not modelled; only the written filenames are observable. -/
structure PredictResult where
  net : Network
  files : List String
  err : Option PyErr
deriving DecidableEq

/-- `Model.predict_dataset` (lines 157-170): `self.net.train(False)`,
`chk_mkdir(export_path)`, then one forward pass and one `io.imsave` per
sample. -/
def Model.predict_dataset {β : Type} (cfg : TrainerCfg β) (net : Network)
    (samples : List PredSample) : PredictResult :=
  let netF := net.train false
  let r := predictLoop samples 0
  ⟨netF, r.1, r.2⟩

/-- `Model.predict_batch` (lines 172-178): `self.net.train(False)`, one
forward pass, no persistence. -/
def Model.predict_batch {β : Type} (cfg : TrainerCfg β) (net : Network)
    (X : ℚ) : Network × ℚ :=
  let netF := net.train false
  (netF, cfg.forward netF.params X)

/-- The sequence of per-batch scalar losses actually observed during one
training epoch starting from parameters `p`: each batch's loss is computed
at the parameters current when that batch is processed, and the optimizer
step then advances the parameters. -/
def lossTrace {β : Type} (cfg : TrainerCfg β) : List β → Params → List ℚ
  | [], _ => []
  | b :: bs, p => cfg.lossFn p b :: lossTrace cfg bs (cfg.optStep p b)

/-- Parameters after one training epoch over the given batches. -/
def trainUpd {β : Type} (cfg : TrainerCfg β) : List β → Params → Params
  | [], p => p
  | b :: bs, p => trainUpd cfg bs (cfg.optStep p b)

/-- Mean training loss of one epoch over the given batches from `p`. -/
def meanTrain {β : Type} (cfg : TrainerCfg β) (bs : List β) (p : Params) : ℚ :=
  (lossTrace cfg bs p).sum / bs.length

/-- Mean validation loss over the given batches at fixed parameters `p`
(validation performs no optimizer step, so every batch is evaluated at the
same parameters). -/
def valLoss {β : Type} (cfg : TrainerCfg β) (vb : List β) (p : Params) : ℚ :=
  (vb.map (cfg.lossFn p)).sum / vb.length

/-- Filenames `Model.predict_dataset` is specified to produce, written as
the spec states it: "the per-sample string identifier when the data source
supplies one, and otherwise the 1-indexed position zero-padded to 3 digits
with the .png extension"; the index argument is the 0-based position of the
first listed sample. -/
def specFilenames : ℕ → List PredSample → List String
  | _, [] => []
  | i, s :: ss =>
      (match s.rest.head? with
       | some (.str nm) => nm
       | _ => zfill (Nat.repr (i + 1)) 3 ++ ".png") :: specFilenames (i + 1) ss

/-- A concrete collaborator configuration used for concrete evaluations:
identity forward, zero loss, identity optimizer step. -/
def cfg0 : TrainerCfg Unit :=
  ⟨fun _ x => x, fun _ _ => 0, fun p _ => p⟩

/-- A concrete Network used for concrete evaluations. -/
def net0 : Network := ⟨[0], false⟩

/-- A concrete collaborator configuration whose loss is the constant 2 on
every batch, for checking the mean computation on a known input. -/
def cfgConst2 : TrainerCfg Unit :=
  ⟨fun _ x => x, fun _ _ => 2, fun p _ => p⟩

/-- One row of the epoch log (line 137): the epoch index and the merged
`val_logs`/`train_logs` entries.  The `time` and `memory` entries read
wall-clock time and device memory from the environment and are not
modelled. -/
structure LogRecord where
  epoch : ℕ
  val_loss : ℚ
  train_loss : ℚ
deriving DecidableEq

/-- File-system side effects of `fit_dataset`, tagged with the epoch in
which they happen: a scheduler step (line 120), an overwrite of
`best_model` (line 125/129), an overwrite of `latest_model` (line 132), an
append to `logs.csv` (line 142), a numbered checkpoint `<epoch>/model`
(lines 146-148), and a prediction image written into the epoch folder
(line 150 via `predict_dataset`). -/
inductive FSEvent where
  | schedStep (epoch : ℕ) (signal : ℚ)
  | saveBest (epoch : ℕ)
  | saveLatest (epoch : ℕ)
  | writeCsv (epoch : ℕ)
  | saveEpochModel (epoch : ℕ)
  | savePrediction (epoch : ℕ) (filename : String)
deriving DecidableEq

/-- The attributes of the `Model` object itself (lines 42-51 plus the
`logger` attribute assigned at line 153).  The collaborator attributes hold
references to external objects, modelled as opaque identifiers: mutating
the referenced Network does not change these fields.  `logger` is absent
(`none`) until `fit_dataset` assigns it. -/
structure TrainerFields where
  netRef : ℕ
  lossRef : ℕ
  optimizerRef : ℕ
  scheduler : Option ℕ
  checkpoint_folder : String
  deviceRef : ℕ
  logger : Option (List LogRecord)
deriving DecidableEq

/-- `Model.__init__` (lines 18-53): stores the collaborator references and
the checkpoint folder.  `chk_mkdir` and the device moves act on the
file system and on the referenced Network/Loss objects, not on these
fields; no `logger` attribute exists yet. -/
def Model.init (netRef lossRef optimizerRef : ℕ) (scheduler : Option ℕ)
    (checkpoint_folder : String) (deviceRef : ℕ) : TrainerFields :=
  ⟨netRef, lossRef, optimizerRef, scheduler, checkpoint_folder, deviceRef, none⟩

/-- The state of one `fit_dataset` call: the trainer fields, the Network
state, the local variables of the function body (`min_loss`, where `none`
models the initial `np.inf`; `train_loss`, a name the source never assigns;
`val_logs`, unbound until the first validation epoch), the in-memory logger,
the trace of file-system events so far, and the pending exception, if any
(side effects performed before an exception remain). -/
structure RunState where
  tr : TrainerFields
  net : Network
  min_loss : Option ℚ
  train_loss : Option ℚ
  val_logs : Option ValLogs
  logger : List LogRecord
  events : List FSEvent
  err : Option PyErr
deriving DecidableEq

/-- The comparison `x < min_loss` where `min_loss` may be the initial
`np.inf` (modelled `none`): everything is below infinity. -/
def ltMin (x : ℚ) : Option ℚ → Bool
  | none => true
  | some m => decide (x < m)

/-- Python truthiness of the `predict_dataset` argument at line 149: `None`
is falsy, and a dataset is falsy exactly when `len` is zero. -/
def pdTruthy (pd : Option (List PredSample)) : Bool :=
  match pd with
  | none => false
  | some l => !l.isEmpty

/-- Lines 132-150 of `fit_dataset`, after the checkpoint decision:
save `latest_model` unconditionally; build the epoch log record (reading
the local `val_logs`, a `NameError` if it was never bound); log it and
append it to `logs.csv`; then, when `save_freq` is truthy and divides the
epoch index, save the numbered checkpoint and, when the prediction dataset
is truthy, run `predict_dataset` into the epoch folder. -/
def fitBodyTail {β : Type} (cfg : TrainerCfg β) (save_freq : ℕ)
    (pd : Option (List PredSample)) (k : ℕ) (tlogs : TrainLogs)
    (s : RunState) : RunState :=
  let s3 : RunState := { s with events := s.events ++ [FSEvent.saveLatest k] }
  match s3.val_logs with
  | none => { s3 with err := some (.nameError "val_logs") }
  | some vlogs =>
    let s4 : RunState := { s3 with
      logger := s3.logger ++ [⟨k, vlogs.val_loss, tlogs.train_loss⟩],
      events := s3.events ++ [FSEvent.writeCsv k] }
    if save_freq ≠ 0 ∧ k % save_freq = 0 then
      let s5 : RunState := { s4 with
        events := s4.events ++ [FSEvent.saveEpochModel k] }
      if pdTruthy pd then
        match pd with
        | none => s5
        | some samples =>
          let pr := Model.predict_dataset cfg s5.net samples
          let s6 : RunState := { s5 with
            net := pr.net,
            events := s5.events ++ pr.files.map (FSEvent.savePrediction k) }
          match pr.err with
          | some e => { s6 with err := some e }
          | none => s6
      else s5
    else s4

/-- Lines 122-131 of `fit_dataset`: the checkpoint decision.  With a
validation dataset, run `val_epoch` and overwrite `best_model`, updating
`min_loss`, exactly when the validation loss beats it; without one, the
comparison reads the local `train_loss`, a name the source never assigns,
so it raises `NameError`. -/
def fitBodyCkpt {β : Type} (cfg : TrainerCfg β) (val_dataset : Option (List β))
    (save_freq : ℕ) (pd : Option (List PredSample)) (k : ℕ) (tlogs : TrainLogs)
    (s : RunState) : RunState :=
  match val_dataset with
  | some vds =>
    let ve := Model.val_epoch cfg s.net vds
    match ve.2 with
    | .error e => { s with net := ve.1, err := some e }
    | .ok vlogs =>
      let s4 : RunState := { s with net := ve.1, val_logs := some vlogs }
      if ltMin vlogs.val_loss s4.min_loss then
        fitBodyTail cfg save_freq pd k tlogs
          { s4 with events := s4.events ++ [FSEvent.saveBest k],
                    min_loss := some vlogs.val_loss }
      else fitBodyTail cfg save_freq pd k tlogs s4
  | none =>
    match s.train_loss with
    | none => { s with err := some (.nameError "train_loss") }
    | some tl =>
      if ltMin tl s.min_loss then
        fitBodyTail cfg save_freq pd k tlogs
          { s with events := s.events ++ [FSEvent.saveBest k],
                   min_loss := some tl }
      else fitBodyTail cfg save_freq pd k tlogs s

/-- One iteration of the `fit_dataset` epoch loop (lines 115-150) at epoch
index `k`.  A pending exception skips the rest of the call.  `fit_epoch`
runs first; then, when a scheduler is configured, `self.scheduler.step(train_loss)`
evaluates the local `train_loss`, a name the source never assigns, so it
raises `NameError` before the scheduler is ever stepped. -/
def fitDatasetBody {β : Type} (cfg : TrainerCfg β) (dataset : ℕ → List β)
    (val_dataset : Option (List β)) (save_freq : ℕ)
    (pd : Option (List PredSample)) (k : ℕ) (s : RunState) : RunState :=
  match s.err with
  | some _ => s
  | none =>
    let fe := Model.fit_epoch cfg s.net (dataset k)
    match fe.2 with
    | .error e => { s with net := fe.1, err := some e }
    | .ok tlogs =>
      let s1 : RunState := { s with net := fe.1 }
      match s1.tr.scheduler with
      | some _ =>
        match s1.train_loss with
        | none => { s1 with err := some (.nameError "train_loss") }
        | some tl =>
          fitBodyCkpt cfg val_dataset save_freq pd k tlogs
            { s1 with events := s1.events ++ [FSEvent.schedStep k tl] }
      | none => fitBodyCkpt cfg val_dataset save_freq pd k tlogs s1

/-- The epoch loop `for epoch_idx in range(1, n_epochs + 1)`: run the
remaining number of epochs starting at epoch index `k`. -/
def fitLoop {β : Type} (cfg : TrainerCfg β) (dataset : ℕ → List β)
    (val_dataset : Option (List β)) (save_freq : ℕ)
    (pd : Option (List PredSample)) : ℕ → ℕ → RunState → RunState
  | 0, _, s => s
  | n + 1, k, s =>
      fitLoop cfg dataset val_dataset save_freq pd n (k + 1)
        (fitDatasetBody cfg dataset val_dataset save_freq pd k s)

/-- `Model.fit_dataset` (lines 103-155).  The dataset argument gives, per
epoch index, the batch sequence the `DataLoader` yields that epoch (shuffle
and batching are the loader's external behaviour).  After the loop,
`self.logger = logger` (line 153) stores the run's logger on the trainer —
reached only when no exception escaped the loop. -/
def Model.fit_dataset {β : Type} (cfg : TrainerCfg β) (tr : TrainerFields)
    (net : Network) (dataset : ℕ → List β) (n_epochs : ℕ)
    (val_dataset : Option (List β)) (save_freq : ℕ)
    (pd : Option (List PredSample)) : RunState :=
  let s0 : RunState := ⟨tr, net, none, none, none, [], [], none⟩
  let s := fitLoop cfg dataset val_dataset save_freq pd n_epochs 1 s0
  match s.err with
  | some _ => s
  | none => { s with tr := { s.tr with logger := some s.logger } }

/-- The DataSource contract for a prediction dataset: every sample carries
at least one column beyond the input, so `rest[0]` never raises. -/
def PredOk : Option (List PredSample) → Prop
  | none => True
  | some samples => ∀ s ∈ samples, s.rest ≠ []

/-- The prediction events generated inside the numbered-checkpoint branch
at epoch `k` (line 149-150). -/
def pdEvents (pd : Option (List PredSample)) (k : ℕ) : List FSEvent :=
  match pd with
  | none => []
  | some samples =>
      if samples.isEmpty then []
      else (predictLoop samples 0).1.map (FSEvent.savePrediction k)

/-- Recognizer for `best_model` overwrites. -/
def isBest : FSEvent → Bool
  | .saveBest _ => true
  | _ => false

/-- Recognizer for `latest_model` overwrites. -/
def isLatest : FSEvent → Bool
  | .saveLatest _ => true
  | _ => false

/-- Recognizer for numbered checkpoint saves. -/
def isEpochSave : FSEvent → Bool
  | .saveEpochModel _ => true
  | _ => false

/-- Recognizer for scheduler steps. -/
def isSchedStep : FSEvent → Bool
  | .schedStep _ _ => true
  | _ => false

/-- The epochs at which the spec says `best_model` is overwritten, given
the per-epoch tracked losses starting at epoch `k` with best-so-far `m`:
exactly the epochs whose loss is strictly smaller than the minimum seen so
far, which then becomes the new best. -/
def specBestEpochs : Option ℚ → ℕ → List ℚ → List ℕ
  | _, _, [] => []
  | m, k, v :: vs =>
      if ltMin v m then k :: specBestEpochs (some v) (k + 1) vs
      else specBestEpochs m (k + 1) vs

/-- The per-epoch trace of a `fit_dataset` run on the non-crashing path
(no scheduler, a validation dataset, every epoch's dataset non-empty):
the log records, the file-system events, and the final parameters and
best-so-far loss, for `n` epochs starting at epoch `k` from parameters `p`
and best-so-far `m`. -/
def runTrace {β : Type} (cfg : TrainerCfg β) (dataset : ℕ → List β)
    (vds : List β) (save_freq : ℕ) (pd : Option (List PredSample)) :
    ℕ → ℕ → Params → Option ℚ →
      List LogRecord × List FSEvent × Params × Option ℚ
  | 0, _, p, m => ([], [], p, m)
  | n + 1, k, p, m =>
    let p2 := trainUpd cfg (dataset k) p
    let tl := meanTrain cfg (dataset k) p
    let v := valLoss cfg vds p2
    let best := ltMin v m
    let m2 := if best then some v else m
    let e1 := (if best then [FSEvent.saveBest k] else []) ++
        [FSEvent.saveLatest k, FSEvent.writeCsv k] ++
        (if save_freq ≠ 0 ∧ k % save_freq = 0 then
          FSEvent.saveEpochModel k :: pdEvents pd k
        else [])
    let r := runTrace cfg dataset vds save_freq pd n (k + 1) p2 m2
    (⟨k, v, tl⟩ :: r.1, e1 ++ r.2.1, r.2.2)

/-- Concrete collaborators over `Bool` batches (`false` = a training batch,
`true` = a validation batch): the parameter head counts completed training
batches, and the validation loss follows the table 2, 3/2, 9/5, 6/5 over
the first four epochs — the spec's example sequence 2.0, 1.5, 1.8, 1.2. -/
def cfgTable : TrainerCfg Bool :=
  ⟨fun _ x => x,
    fun p b =>
      if b then
        if p.headD 0 = 1 then 2
        else if p.headD 0 = 2 then 3 / 2
        else if p.headD 0 = 3 then 9 / 5
        else 6 / 5
      else 0,
    fun p _ => [p.headD 0 + 1]⟩

/-- A per-epoch training dataset of one `Bool` batch. -/
def datasetB : ℕ → List Bool := fun _ => [false]

/-- A validation dataset of one `Bool` batch. -/
def vdsB : List Bool := [true]

/-- A Network over `Bool` batches starting at parameter 0. -/
def netB : Network := ⟨[0], false⟩

/-- A trainer construction with no scheduler configured. -/
def trNoSched : TrainerFields := Model.init 0 1 2 none "checkpoints" 0

/-- A per-epoch training dataset of one `Unit` batch. -/
def datasetU : ℕ → List Unit := fun _ => [()]

theorem fitLoopGo_eq {β : Type} (cfg : TrainerCfg β) (bs : List β) :
    ∀ (p : Params) (acc : ℚ) (cnt : ℕ),
      fitLoopGo cfg bs p acc cnt =
        (trainUpd cfg bs p, acc + (lossTrace cfg bs p).sum, cnt + bs.length) := by
  induction bs with
  | nil => intro p acc cnt; simp [fitLoopGo, trainUpd, lossTrace]
  | cons b bs ih =>
      intro p acc cnt
      simp only [fitLoopGo, trainUpd, lossTrace, List.sum_cons, List.length_cons]
      rw [ih]
      refine congrArg (Prod.mk _) ?_
      refine congrArg₂ Prod.mk (by ring) (by omega)

theorem valLoopGo_eq {β : Type} (cfg : TrainerCfg β) (p : Params) (bs : List β) :
    ∀ (acc : ℚ) (cnt : ℕ),
      valLoopGo cfg p bs acc cnt =
        (acc + (bs.map (cfg.lossFn p)).sum, cnt + bs.length) := by
  induction bs with
  | nil => intro acc cnt; simp [valLoopGo]
  | cons b bs ih =>
      intro acc cnt
      simp only [valLoopGo, List.map_cons, List.sum_cons, List.length_cons]
      rw [ih]
      refine congrArg₂ Prod.mk (by ring) (by omega)

theorem fit_epoch_eq {β : Type} (cfg : TrainerCfg β) (net : Network)
    (bs : List β) (h : bs ≠ []) :
    Model.fit_epoch cfg net bs =
      (⟨trainUpd cfg bs net.params, false⟩, .ok ⟨meanTrain cfg bs net.params⟩) := by
  have hlen : bs.length ≠ 0 := by
    intro hc; exact h (List.length_eq_zero.mp hc)
  simp only [Model.fit_epoch, fitLoopGo_eq, Network.train, zero_add, Nat.zero_add]
  rw [if_neg hlen]
  have hd : bs.length - 1 + 1 = bs.length := Nat.succ_pred_eq_of_pos (Nat.pos_of_ne_zero hlen)
  rw [hd]
  simp only [pyDiv, if_neg hlen]
  rfl

theorem val_epoch_eq {β : Type} (cfg : TrainerCfg β) (net : Network)
    (bs : List β) (h : bs ≠ []) :
    Model.val_epoch cfg net bs =
      (net.train false, .ok ⟨valLoss cfg bs net.params⟩) := by
  have hlen : bs.length ≠ 0 := by
    intro hc; exact h (List.length_eq_zero.mp hc)
  simp only [Model.val_epoch, valLoopGo_eq, Network.train, zero_add, Nat.zero_add]
  rw [if_neg hlen]
  have hd : bs.length - 1 + 1 = bs.length := Nat.succ_pred_eq_of_pos (Nat.pos_of_ne_zero hlen)
  rw [hd]
  simp only [pyDiv, if_neg hlen]
  rfl

/-- C3: for every dataset yielding at least one batch, `fit_epoch` returns,
under the key `train_loss`, the arithmetic mean of the per-batch scalar
losses actually observed — their sum divided by the number of batches. -/
theorem fit_epoch_returns_mean_loss {β : Type} (cfg : TrainerCfg β)
    (net : Network) (batches : List β) (h : batches ≠ []) :
    (Model.fit_epoch cfg net batches).2 =
      .ok ⟨(lossTrace cfg batches net.params).sum / batches.length⟩ := by
  rw [fit_epoch_eq cfg net batches h]
  rfl

/-- Witness for C3: on a concrete two-batch dataset whose observed per-batch
losses are the constant 2, `fit_epoch` reports train_loss = (2 + 2) / 2 = 2. -/
theorem fit_epoch_returns_mean_loss_witness :
    (([(), ()] : List Unit) ≠ [] ∧
      (Model.fit_epoch cfgConst2 net0 [(), ()]).2 =
        .ok ⟨(lossTrace cfgConst2 [(), ()] net0.params).sum /
          (([(), ()] : List Unit).length)⟩) ∧
    (Model.fit_epoch cfgConst2 net0 [(), ()]).2 = .ok ⟨2⟩ :=
  ⟨⟨by decide, fit_epoch_returns_mean_loss cfgConst2 net0 [(), ()] (by decide)⟩,
    by norm_num [Model.fit_epoch, fitLoopGo, cfgConst2, net0, pyDiv, Network.train]⟩

/-- C4 counterexample: on a dataset yielding zero batches, `fit_epoch` and
`val_epoch` do fail, but with `UnboundLocalError` (a `NameError`) raised by
`del X_batch, y_batch` on the never-bound loop locals — not with a division
by zero on the batch count: the failing statement precedes the division. -/
theorem empty_dataset_failure_is_not_zero_division :
    (Model.fit_epoch cfg0 net0 ([] : List Unit)).2 =
        .error (.nameError "X_batch") ∧
    (Model.val_epoch cfg0 net0 ([] : List Unit)).2 =
        .error (.nameError "X_batch") ∧
    PyErr.nameError "X_batch" ≠ PyErr.zeroDivisionError := by
  refine ⟨rfl, rfl, by decide⟩

/-- C4 amended: for every dataset that yields zero batches, `fit_epoch` and
`val_epoch` fail — they do not silently return a result — but the failure is
the `UnboundLocalError`/`NameError` raised by `del X_batch, y_batch` on the
unbound loop variables (line 75 resp. 96), reached before the division by
the batch count. -/
theorem empty_dataset_fit_and_val_raise_unbound_local {β : Type}
    (cfg : TrainerCfg β) (net : Network) :
    (Model.fit_epoch cfg net ([] : List β)).2 =
        .error (.nameError "X_batch") ∧
    (Model.val_epoch cfg net ([] : List β)).2 =
        .error (.nameError "X_batch") :=
  ⟨rfl, rfl⟩

/-- C8: `val_epoch` never mutates the Network's trainable parameters: it
performs no backward pass and no optimizer step, so the parameter vector
after the call equals the one before, on every dataset (empty or not). -/
theorem val_epoch_preserves_params {β : Type} (cfg : TrainerCfg β)
    (net : Network) (batches : List β) :
    (Model.val_epoch cfg net batches).1.params = net.params := rfl

/-- C10: every public operation leaves the Network in evaluation mode when
it returns: `fit_epoch` enables training mode only around its batch loop and
disables it before returning (line 73), and `val_epoch`, `predict_dataset`
and `predict_batch` set evaluation mode at entry and never re-enable
training mode. -/
theorem public_operations_end_in_eval_mode {β : Type} (cfg : TrainerCfg β)
    (net : Network) (batches vbatches : List β) (samples : List PredSample)
    (X : ℚ) :
    (Model.fit_epoch cfg net batches).1.training = false ∧
    (Model.val_epoch cfg net vbatches).1.training = false ∧
    (Model.predict_dataset cfg net samples).net.training = false ∧
    (Model.predict_batch cfg net X).1.training = false :=
  ⟨rfl, rfl, rfl, rfl⟩

theorem predictLoop_eq (samples : List PredSample) :
    ∀ (i : ℕ), (∀ s ∈ samples, s.rest ≠ []) →
      predictLoop samples i = (specFilenames i samples, none) := by
  induction samples with
  | nil => intro i _; rfl
  | cons s ss ih =>
      intro i h
      have hs : s.rest ≠ [] := h s (List.mem_cons_self s ss)
      have hss : ∀ x ∈ ss, x.rest ≠ [] := fun x hx => h x (List.mem_cons_of_mem s hx)
      match hrest : s.rest with
      | [] => exact absurd hrest hs
      | v :: vs =>
          simp only [predictLoop, hrest, ih (i + 1) hss, specFilenames,
            List.head?]
          cases v <;> rfl

theorem specFilenames_length (samples : List PredSample) :
    ∀ i, (specFilenames i samples).length = samples.length := by
  induction samples with
  | nil => intro i; rfl
  | cons s ss ih =>
      intro i
      simp only [specFilenames, List.length_cons, ih (i + 1)]

/-- C6: for every data source whose samples each carry at least one column
beyond the input (the DataSource contract: input, target, optional
metadata), `predict_dataset` writes exactly one image file per sample, and
the filename is the per-sample string identifier when the source supplies
one, else the 1-indexed position zero-padded to 3 digits with the `.png`
extension. -/
theorem predict_dataset_filenames {β : Type} (cfg : TrainerCfg β)
    (net : Network) (samples : List PredSample)
    (h : ∀ s ∈ samples, s.rest ≠ []) :
    (Model.predict_dataset cfg net samples).err = none ∧
    (Model.predict_dataset cfg net samples).files = specFilenames 0 samples ∧
    (Model.predict_dataset cfg net samples).files.length = samples.length := by
  have hp := predictLoop_eq samples 0 h
  refine ⟨?_, ?_, ?_⟩
  · simp only [Model.predict_dataset, hp]
  · simp only [Model.predict_dataset, hp]
  · simp only [Model.predict_dataset, hp, specFilenames_length]

/-- Witness for C6: a 2-sample source supplying no string identifiers (the
extra column is a tensor) yields files `001.png` and `002.png`; a 2-sample
source supplying identifiers `a.png`, `b.png` yields exactly those names. -/
theorem predict_dataset_filenames_witness :
    ((Model.predict_dataset cfg0 net0
        [⟨0, [.tensor 0]⟩, ⟨0, [.tensor 0]⟩]).err = none ∧
      (Model.predict_dataset cfg0 net0
        [⟨0, [.tensor 0]⟩, ⟨0, [.tensor 0]⟩]).files =
          specFilenames 0 [⟨0, [.tensor 0]⟩, ⟨0, [.tensor 0]⟩] ∧
      (Model.predict_dataset cfg0 net0
        [⟨0, [.tensor 0]⟩, ⟨0, [.tensor 0]⟩]).files.length =
          ([⟨0, [.tensor 0]⟩, ⟨0, [.tensor 0]⟩] : List PredSample).length) ∧
    (Model.predict_dataset cfg0 net0
        [⟨0, [.tensor 0]⟩, ⟨0, [.tensor 0]⟩]).files = ["001.png", "002.png"] ∧
    (Model.predict_dataset cfg0 net0
        [⟨0, [.str "a.png"]⟩, ⟨0, [.str "b.png"]⟩]).files = ["a.png", "b.png"] :=
  ⟨predict_dataset_filenames cfg0 net0 [⟨0, [.tensor 0]⟩, ⟨0, [.tensor 0]⟩]
      (by decide),
    by decide, by decide⟩

theorem fitBodyTail_tr {β : Type} (cfg : TrainerCfg β) (save_freq : ℕ)
    (pd : Option (List PredSample)) (k : ℕ) (tlogs : TrainLogs)
    (s : RunState) : (fitBodyTail cfg save_freq pd k tlogs s).tr = s.tr := by
  simp only [fitBodyTail]
  split
  · rfl
  · split
    · split
      · split
        · rfl
        · split <;> rfl
      · rfl
    · rfl

theorem fitBodyCkpt_tr {β : Type} (cfg : TrainerCfg β)
    (val_dataset : Option (List β)) (save_freq : ℕ)
    (pd : Option (List PredSample)) (k : ℕ) (tlogs : TrainLogs)
    (s : RunState) :
    (fitBodyCkpt cfg val_dataset save_freq pd k tlogs s).tr = s.tr := by
  simp only [fitBodyCkpt]
  split
  · split
    · rfl
    · split
      · rw [fitBodyTail_tr]
      · rw [fitBodyTail_tr]
  · split
    · rfl
    · split
      · rw [fitBodyTail_tr]
      · rw [fitBodyTail_tr]

theorem fitDatasetBody_tr {β : Type} (cfg : TrainerCfg β)
    (dataset : ℕ → List β) (val_dataset : Option (List β)) (save_freq : ℕ)
    (pd : Option (List PredSample)) (k : ℕ) (s : RunState) :
    (fitDatasetBody cfg dataset val_dataset save_freq pd k s).tr = s.tr := by
  simp only [fitDatasetBody]
  split
  · rfl
  · split
    · rfl
    · split
      · split
        · rfl
        · rw [fitBodyCkpt_tr]
      · rw [fitBodyCkpt_tr]

theorem fitLoop_tr {β : Type} (cfg : TrainerCfg β) (dataset : ℕ → List β)
    (val_dataset : Option (List β)) (save_freq : ℕ)
    (pd : Option (List PredSample)) :
    ∀ (n k : ℕ) (s : RunState),
      (fitLoop cfg dataset val_dataset save_freq pd n k s).tr = s.tr := by
  intro n
  induction n with
  | zero => intro k s; rfl
  | succ n ih =>
      intro k s
      simp only [fitLoop, ih, fitDatasetBody_tr]

/-- C1 (code bug): with a Scheduler configured, `fit_dataset` never invokes
the scheduler's step with the epoch's training loss — the call
`self.scheduler.step(train_loss)` (line 120) reads the local name
`train_loss`, which the function never assigns, so the very first epoch
raises `NameError` before any step.  Evaluated at a concrete failing input
(one epoch, a one-batch dataset, a configured scheduler): the run ends in
`NameError` on `train_loss` and no file-system or scheduler event at all
occurred. -/
theorem scheduler_is_never_stepped :
    (Model.fit_dataset cfg0 (Model.init 0 1 2 (some 7) "ckpt" 0) net0
        (fun _ => [()]) 1 none 100 none).err =
      some (.nameError "train_loss") ∧
    (Model.fit_dataset cfg0 (Model.init 0 1 2 (some 7) "ckpt" 0) net0
        (fun _ => [()]) 1 none 100 none).events = [] := by
  have hfe : Model.fit_epoch cfg0 net0 [()] =
      (⟨trainUpd cfg0 [()] net0.params, false⟩,
        .ok ⟨meanTrain cfg0 [()] net0.params⟩) :=
    fit_epoch_eq cfg0 net0 [()] (by decide)
  constructor <;>
    simp [Model.fit_dataset, fitLoop, fitDatasetBody, hfe, Model.init]

/-- C2 (code bug): with no validation dataset, `fit_dataset` never reaches
the best-model decision — the comparison `if train_loss < min_loss`
(line 128) reads the local name `train_loss`, which the function never
assigns, so the very first epoch raises `NameError`.  Evaluated at a
concrete failing input (one epoch, a one-batch dataset, no scheduler, no
validation dataset): the run ends in `NameError` on `train_loss` and no
checkpoint of any kind was written. -/
theorem no_validation_best_checkpoint_is_never_written :
    (Model.fit_dataset cfg0 (Model.init 0 1 2 none "ckpt" 0) net0
        (fun _ => [()]) 1 none 100 none).err =
      some (.nameError "train_loss") ∧
    (Model.fit_dataset cfg0 (Model.init 0 1 2 none "ckpt" 0) net0
        (fun _ => [()]) 1 none 100 none).events = [] := by
  have hfe : Model.fit_epoch cfg0 net0 [()] =
      (⟨trainUpd cfg0 [()] net0.params, false⟩,
        .ok ⟨meanTrain cfg0 [()] net0.params⟩) :=
    fit_epoch_eq cfg0 net0 [()] (by decide)
  constructor <;>
    simp [Model.fit_dataset, fitLoop, fitDatasetBody, fitBodyCkpt, hfe,
      Model.init]

/-- C9 counterexample: a public operation other than construction does
mutate the fields of the Trainer object itself: a completing `fit_dataset`
call (one epoch, validation dataset supplied, no scheduler) assigns the
`logger` attribute (line 153), which construction had left absent. -/
theorem fit_dataset_mutates_trainer_fields :
    (Model.init 0 1 2 none "ckpt" 0).logger = none ∧
    (Model.fit_dataset cfg0 (Model.init 0 1 2 none "ckpt" 0) net0
        (fun _ => [()]) 1 (some [()]) 100 none).tr.logger ≠ none := by
  have hfe : Model.fit_epoch cfg0 net0 [()] =
      (⟨trainUpd cfg0 [()] net0.params, false⟩,
        .ok ⟨meanTrain cfg0 [()] net0.params⟩) :=
    fit_epoch_eq cfg0 net0 [()] (by decide)
  have hve : Model.val_epoch cfg0 ⟨trainUpd cfg0 [()] net0.params, false⟩ [()] =
      ((⟨trainUpd cfg0 [()] net0.params, false⟩ : Network).train false,
        .ok ⟨valLoss cfg0 [()] (trainUpd cfg0 [()] net0.params)⟩) :=
    val_epoch_eq cfg0 ⟨trainUpd cfg0 [()] net0.params, false⟩ [()] (by decide)
  constructor
  · rfl
  · simp [Model.fit_dataset, fitLoop, fitDatasetBody, fitBodyCkpt,
      fitBodyTail, hfe, hve, Model.init, ltMin, Network.train]

theorem predictLoop_err_none (samples : List PredSample) (i : ℕ)
    (h : ∀ s ∈ samples, s.rest ≠ []) : (predictLoop samples i).2 = none := by
  rw [predictLoop_eq samples i h]


theorem Network.train_false_id (net : Network) (h : net.training = false) :
    net.train false = net := by
  cases net with
  | mk p t =>
      simp only [Network.train] at *
      rw [h]

theorem fitBodyTail_good {β : Type} (cfg : TrainerCfg β) (save_freq : ℕ)
    (pd : Option (List PredSample)) (k : ℕ) (tlogs : TrainLogs) (s : RunState)
    (vlogs : ValLogs) (hvl : s.val_logs = some vlogs) (hpd : PredOk pd)
    (hnet : s.net.training = false) :
    fitBodyTail cfg save_freq pd k tlogs s =
      { s with
        logger := s.logger ++ [⟨k, vlogs.val_loss, tlogs.train_loss⟩],
        events := s.events ++
          ([FSEvent.saveLatest k, FSEvent.writeCsv k] ++
            (if save_freq ≠ 0 ∧ k % save_freq = 0 then
              FSEvent.saveEpochModel k :: pdEvents pd k
            else [])) } := by
  simp only [fitBodyTail, hvl]
  by_cases hsf : save_freq ≠ 0 ∧ k % save_freq = 0
  · rw [if_pos hsf, if_pos hsf]
    rcases pd with _ | samples
    · simp [pdTruthy, pdEvents, List.append_assoc]
    · by_cases hemp : samples.isEmpty = true
      · simp [pdTruthy, pdEvents, hemp, List.append_assoc]
      · have hpl := predictLoop_err_none samples 0 hpd
        simp [pdTruthy, pdEvents, hemp, Model.predict_dataset, hpl,
          Network.train_false_id _ hnet, List.append_assoc]
  · rw [if_neg hsf, if_neg hsf]
    simp [List.append_assoc]

theorem fitBodyCkpt_good {β : Type} (cfg : TrainerCfg β) (vds : List β)
    (save_freq : ℕ) (pd : Option (List PredSample)) (k : ℕ)
    (tlogs : TrainLogs) (s : RunState) (hv : vds ≠ []) (hpd : PredOk pd) :
    fitBodyCkpt cfg (some vds) save_freq pd k tlogs s =
      { s with
        net := s.net.train false,
        val_logs := some ⟨valLoss cfg vds s.net.params⟩,
        min_loss :=
          if ltMin (valLoss cfg vds s.net.params) s.min_loss then
            some (valLoss cfg vds s.net.params)
          else s.min_loss,
        logger := s.logger ++
          [⟨k, valLoss cfg vds s.net.params, tlogs.train_loss⟩],
        events := s.events ++
          ((if ltMin (valLoss cfg vds s.net.params) s.min_loss then
              [FSEvent.saveBest k] else []) ++
            [FSEvent.saveLatest k, FSEvent.writeCsv k] ++
            (if save_freq ≠ 0 ∧ k % save_freq = 0 then
              FSEvent.saveEpochModel k :: pdEvents pd k
            else [])) } := by
  simp only [fitBodyCkpt, val_epoch_eq cfg s.net vds hv]
  by_cases hb : ltMin (valLoss cfg vds s.net.params) s.min_loss = true
  · rw [if_pos hb]
    rw [fitBodyTail_good cfg save_freq pd k tlogs _
      ⟨valLoss cfg vds s.net.params⟩ rfl hpd rfl]
    simp [hb, List.append_assoc]
  · rw [if_neg hb]
    rw [fitBodyTail_good cfg save_freq pd k tlogs _
      ⟨valLoss cfg vds s.net.params⟩ rfl hpd rfl]
    simp [hb, Bool.not_eq_true, List.append_assoc]

theorem fitDatasetBody_good {β : Type} (cfg : TrainerCfg β)
    (dataset : ℕ → List β) (vds : List β) (save_freq : ℕ)
    (pd : Option (List PredSample)) (hpd : PredOk pd) (k : ℕ) (s : RunState)
    (herr : s.err = none) (hsched : s.tr.scheduler = none)
    (hds : dataset k ≠ []) (hv : vds ≠ []) :
    fitDatasetBody cfg dataset (some vds) save_freq pd k s =
      { s with
        net := ⟨trainUpd cfg (dataset k) s.net.params, false⟩,
        val_logs := some ⟨valLoss cfg vds (trainUpd cfg (dataset k) s.net.params)⟩,
        min_loss :=
          if ltMin (valLoss cfg vds (trainUpd cfg (dataset k) s.net.params))
              s.min_loss then
            some (valLoss cfg vds (trainUpd cfg (dataset k) s.net.params))
          else s.min_loss,
        logger := s.logger ++
          [⟨k, valLoss cfg vds (trainUpd cfg (dataset k) s.net.params),
            meanTrain cfg (dataset k) s.net.params⟩],
        events := s.events ++
          ((if ltMin (valLoss cfg vds (trainUpd cfg (dataset k) s.net.params))
                s.min_loss then [FSEvent.saveBest k] else []) ++
            [FSEvent.saveLatest k, FSEvent.writeCsv k] ++
            (if save_freq ≠ 0 ∧ k % save_freq = 0 then
              FSEvent.saveEpochModel k :: pdEvents pd k
            else [])) } := by
  simp only [fitDatasetBody, herr, fit_epoch_eq cfg s.net (dataset k) hds,
    hsched]
  rw [fitBodyCkpt_good cfg vds save_freq pd k _ _ hv hpd]
  simp [Network.train]

theorem fitLoop_good {β : Type} (cfg : TrainerCfg β) (dataset : ℕ → List β)
    (vds : List β) (save_freq : ℕ) (pd : Option (List PredSample))
    (hpd : PredOk pd) (hds : ∀ e, dataset e ≠ []) (hv : vds ≠ []) :
    ∀ (n k : ℕ) (s : RunState), s.err = none → s.tr.scheduler = none →
      (fitLoop cfg dataset (some vds) save_freq pd n k s).err = none ∧
      (fitLoop cfg dataset (some vds) save_freq pd n k s).net.params =
        (runTrace cfg dataset vds save_freq pd n k s.net.params
          s.min_loss).2.2.1 ∧
      (fitLoop cfg dataset (some vds) save_freq pd n k s).min_loss =
        (runTrace cfg dataset vds save_freq pd n k s.net.params
          s.min_loss).2.2.2 ∧
      (fitLoop cfg dataset (some vds) save_freq pd n k s).logger =
        s.logger ++ (runTrace cfg dataset vds save_freq pd n k s.net.params
          s.min_loss).1 ∧
      (fitLoop cfg dataset (some vds) save_freq pd n k s).events =
        s.events ++ (runTrace cfg dataset vds save_freq pd n k s.net.params
          s.min_loss).2.1 := by
  intro n
  induction n with
  | zero =>
      intro k s herr _
      refine ⟨herr, rfl, rfl, by simp [fitLoop, runTrace],
        by simp [fitLoop, runTrace]⟩
  | succ n ih =>
      intro k s herr hsched
      simp only [fitLoop]
      rw [fitDatasetBody_good cfg dataset vds save_freq pd hpd k s herr
        hsched (hds k) hv]
      obtain ⟨h1, h2, h3, h4, h5⟩ := ih (k + 1)
        { s with
          net := ⟨trainUpd cfg (dataset k) s.net.params, false⟩,
          val_logs :=
            some ⟨valLoss cfg vds (trainUpd cfg (dataset k) s.net.params)⟩,
          min_loss :=
            if ltMin (valLoss cfg vds (trainUpd cfg (dataset k) s.net.params))
                s.min_loss then
              some (valLoss cfg vds (trainUpd cfg (dataset k) s.net.params))
            else s.min_loss,
          logger := s.logger ++
            [⟨k, valLoss cfg vds (trainUpd cfg (dataset k) s.net.params),
              meanTrain cfg (dataset k) s.net.params⟩],
          events := s.events ++
            ((if ltMin
                  (valLoss cfg vds (trainUpd cfg (dataset k) s.net.params))
                  s.min_loss then [FSEvent.saveBest k] else []) ++
              [FSEvent.saveLatest k, FSEvent.writeCsv k] ++
              (if save_freq ≠ 0 ∧ k % save_freq = 0 then
                FSEvent.saveEpochModel k :: pdEvents pd k
              else [])) }
        herr hsched
      simp only [runTrace]
      refine ⟨h1, ?_, ?_, ?_, ?_⟩
      · rw [h2]
      · rw [h3]
      · rw [h4]
        simp [List.append_assoc]
      · rw [h5]
        simp [List.append_assoc]

theorem pdEvents_filter_eq_nil (pd : Option (List PredSample)) (k : ℕ)
    (f : FSEvent → Bool)
    (hf : ∀ nm, f (FSEvent.savePrediction k nm) = false) :
    (pdEvents pd k).filter f = [] := by
  rcases pd with _ | samples
  · rfl
  · simp only [pdEvents]
    by_cases hemp : samples.isEmpty = true
    · simp [hemp]
    · simp only [hemp, Bool.false_eq_true, if_false]
      rw [List.filter_eq_nil_iff]
      intro a ha
      rcases List.mem_map.mp ha with ⟨nm, _, rfl⟩
      simp [hf nm]

theorem runTrace_logs_length {β : Type} (cfg : TrainerCfg β)
    (dataset : ℕ → List β) (vds : List β) (save_freq : ℕ)
    (pd : Option (List PredSample)) :
    ∀ (n k : ℕ) (p : Params) (m : Option ℚ),
      (runTrace cfg dataset vds save_freq pd n k p m).1.length = n := by
  intro n
  induction n with
  | zero => intro k p m; rfl
  | succ n ih =>
      intro k p m
      simp only [runTrace, List.length_cons, ih]

theorem runTrace_filter_latest {β : Type} (cfg : TrainerCfg β)
    (dataset : ℕ → List β) (vds : List β) (save_freq : ℕ)
    (pd : Option (List PredSample)) :
    ∀ (n k : ℕ) (p : Params) (m : Option ℚ),
      ((runTrace cfg dataset vds save_freq pd n k p m).2.1).filter isLatest =
        (List.range' k n).map FSEvent.saveLatest := by
  intro n
  induction n with
  | zero => intro k p m; rfl
  | succ n ih =>
      intro k p m
      simp only [runTrace]
      rw [List.range'_succ k n 1]
      by_cases hb : ltMin (valLoss cfg vds (trainUpd cfg (dataset k) p)) m = true
      all_goals by_cases hsf : save_freq ≠ 0 ∧ k % save_freq = 0
      all_goals simp [hb, hsf, List.filter_append, List.filter_cons, isLatest,
        pdEvents_filter_eq_nil pd k isLatest (fun nm => rfl), ih]

theorem runTrace_filter_best {β : Type} (cfg : TrainerCfg β)
    (dataset : ℕ → List β) (vds : List β) (save_freq : ℕ)
    (pd : Option (List PredSample)) :
    ∀ (n k : ℕ) (p : Params) (m : Option ℚ),
      ((runTrace cfg dataset vds save_freq pd n k p m).2.1).filter isBest =
        (specBestEpochs m k
          ((runTrace cfg dataset vds save_freq pd n k p m).1.map
            LogRecord.val_loss)).map FSEvent.saveBest := by
  intro n
  induction n with
  | zero => intro k p m; rfl
  | succ n ih =>
      intro k p m
      simp only [runTrace, List.map_cons]
      by_cases hb : ltMin (valLoss cfg vds (trainUpd cfg (dataset k) p)) m = true
      all_goals by_cases hsf : save_freq ≠ 0 ∧ k % save_freq = 0
      all_goals simp [hb, hsf, specBestEpochs, List.filter_append,
        List.filter_cons, isBest,
        pdEvents_filter_eq_nil pd k isBest (fun nm => rfl), ih]

theorem runTrace_filter_epochsave {β : Type} (cfg : TrainerCfg β)
    (dataset : ℕ → List β) (vds : List β) (save_freq : ℕ)
    (pd : Option (List PredSample)) :
    ∀ (n k : ℕ) (p : Params) (m : Option ℚ),
      ((runTrace cfg dataset vds save_freq pd n k p m).2.1).filter
          isEpochSave =
        ((List.range' k n).filter
          (fun j => decide (save_freq ≠ 0 ∧ j % save_freq = 0))).map
            FSEvent.saveEpochModel := by
  intro n
  induction n with
  | zero => intro k p m; rfl
  | succ n ih =>
      intro n1 p m
      simp only [runTrace]
      rw [List.range'_succ n1 n 1]
      by_cases hb : ltMin (valLoss cfg vds (trainUpd cfg (dataset n1) p)) m = true
      all_goals by_cases hsf : save_freq ≠ 0 ∧ n1 % save_freq = 0
      all_goals simp [hb, hsf, List.filter_append, List.filter_cons,
        isEpochSave,
        pdEvents_filter_eq_nil pd n1 isEpochSave (fun nm => rfl), ih]

/-- C5: across every epoch of a `fit_dataset` run with a validation dataset
(on the path that completes: no scheduler configured, every epoch's dataset
and the validation dataset non-empty, prediction samples well-formed), the
run raises no error, logs one record per epoch, overwrites `latest_model`
on every epoch 1..n unconditionally, and overwrites `best_model` exactly at
the epochs whose validation loss is strictly smaller than the minimum seen
so far (`specBestEpochs` applied to the run's own per-epoch validation
losses). -/
theorem fit_dataset_best_and_latest_checkpoints {β : Type}
    (cfg : TrainerCfg β) (tr : TrainerFields) (net : Network)
    (dataset : ℕ → List β) (n_epochs : ℕ) (vds : List β) (save_freq : ℕ)
    (pd : Option (List PredSample)) (hsched : tr.scheduler = none)
    (hds : ∀ e, dataset e ≠ []) (hv : vds ≠ []) (hpd : PredOk pd) :
    (Model.fit_dataset cfg tr net dataset n_epochs (some vds) save_freq
      pd).err = none ∧
    (Model.fit_dataset cfg tr net dataset n_epochs (some vds) save_freq
      pd).logger.length = n_epochs ∧
    (Model.fit_dataset cfg tr net dataset n_epochs (some vds) save_freq
      pd).events.filter isLatest =
        (List.range' 1 n_epochs).map FSEvent.saveLatest ∧
    (Model.fit_dataset cfg tr net dataset n_epochs (some vds) save_freq
      pd).events.filter isBest =
        (specBestEpochs none 1
          ((Model.fit_dataset cfg tr net dataset n_epochs (some vds)
            save_freq pd).logger.map LogRecord.val_loss)).map
              FSEvent.saveBest := by
  obtain ⟨h1, h2, h3, h4, h5⟩ := fitLoop_good cfg dataset vds save_freq pd
    hpd hds hv n_epochs 1 ⟨tr, net, none, none, none, [], [], none⟩ rfl hsched
  simp only [Model.fit_dataset, h1]
  refine ⟨trivial, ?_, ?_, ?_⟩
  · simp only [h4, List.nil_append,
      runTrace_logs_length cfg dataset vds save_freq pd]
  · simp only [h5, List.nil_append,
      runTrace_filter_latest cfg dataset vds save_freq pd]
  · simp only [h5, h4, List.nil_append,
      runTrace_filter_best cfg dataset vds save_freq pd]

/-- Witness for C5: the theorem applied to a concrete 4-epoch run whose
collaborators (`cfgTable`) realize the spec's example validation-loss
sequence 2.0, 1.5, 1.8, 1.2, together with concrete evaluations: the run's
logged validation losses are exactly 2, 3/2, 9/5, 6/5, `best_model` is
written exactly at epochs 1, 2 and 4, and `latest_model` at each of the 4
epochs. -/
theorem fit_dataset_best_and_latest_checkpoints_witness :
    ((Model.fit_dataset cfgTable trNoSched netB datasetB 4 (some vdsB) 100
        none).err = none ∧
      (Model.fit_dataset cfgTable trNoSched netB datasetB 4 (some vdsB) 100
        none).logger.length = 4 ∧
      (Model.fit_dataset cfgTable trNoSched netB datasetB 4 (some vdsB) 100
        none).events.filter isLatest =
          (List.range' 1 4).map FSEvent.saveLatest ∧
      (Model.fit_dataset cfgTable trNoSched netB datasetB 4 (some vdsB) 100
        none).events.filter isBest =
          (specBestEpochs none 1
            ((Model.fit_dataset cfgTable trNoSched netB datasetB 4
              (some vdsB) 100 none).logger.map LogRecord.val_loss)).map
                FSEvent.saveBest) ∧
    specBestEpochs none 1 [2, 3 / 2, 9 / 5, 6 / 5] = [1, 2, 4] ∧
    (Model.fit_dataset cfgTable trNoSched netB datasetB 4 (some vdsB) 100
        none).logger.map LogRecord.val_loss = [2, 3 / 2, 9 / 5, 6 / 5] ∧
    (Model.fit_dataset cfgTable trNoSched netB datasetB 4 (some vdsB) 100
        none).events.filter isBest =
      [FSEvent.saveBest 1, FSEvent.saveBest 2, FSEvent.saveBest 4] ∧
    (Model.fit_dataset cfgTable trNoSched netB datasetB 4 (some vdsB) 100
        none).events.filter isLatest =
      [FSEvent.saveLatest 1, FSEvent.saveLatest 2, FSEvent.saveLatest 3,
        FSEvent.saveLatest 4] :=
  ⟨fit_dataset_best_and_latest_checkpoints cfgTable trNoSched netB datasetB 4
      vdsB 100 none rfl (fun e => by simp [datasetB]) (by simp [vdsB])
      trivial,
    by norm_num [specBestEpochs, ltMin],
    by norm_num [Model.fit_dataset, fitLoop, fitDatasetBody, fitBodyCkpt,
      fitBodyTail, Model.fit_epoch, Model.val_epoch, fitLoopGo, valLoopGo,
      pyDiv, cfgTable, datasetB, vdsB, netB, trNoSched, Model.init,
      Network.train, ltMin, pdTruthy],
    by norm_num [Model.fit_dataset, fitLoop, fitDatasetBody, fitBodyCkpt,
      fitBodyTail, Model.fit_epoch, Model.val_epoch, fitLoopGo, valLoopGo,
      pyDiv, cfgTable, datasetB, vdsB, netB, trNoSched, Model.init,
      Network.train, ltMin, pdTruthy, isBest, List.filter],
    by norm_num [Model.fit_dataset, fitLoop, fitDatasetBody, fitBodyCkpt,
      fitBodyTail, Model.fit_epoch, Model.val_epoch, fitLoopGo, valLoopGo,
      pyDiv, cfgTable, datasetB, vdsB, netB, trNoSched, Model.init,
      Network.train, ltMin, pdTruthy, isLatest, List.filter]⟩

/-- C7: in a `fit_dataset` run (on the completing path: validation dataset
supplied, no scheduler, non-empty datasets, well-formed prediction samples)
a numbered checkpoint folder with a saved model is created exactly at the
epochs in 1..n whose index is divisible by a truthy (non-zero) `save_freq`;
with a falsy (zero) `save_freq` the filter is empty, so no numbered
checkpoint is ever created. -/
theorem fit_dataset_numbered_checkpoints {β : Type} (cfg : TrainerCfg β)
    (tr : TrainerFields) (net : Network) (dataset : ℕ → List β)
    (n_epochs : ℕ) (vds : List β) (save_freq : ℕ)
    (pd : Option (List PredSample)) (hsched : tr.scheduler = none)
    (hds : ∀ e, dataset e ≠ []) (hv : vds ≠ []) (hpd : PredOk pd) :
    (Model.fit_dataset cfg tr net dataset n_epochs (some vds) save_freq
      pd).events.filter isEpochSave =
        ((List.range' 1 n_epochs).filter
          (fun j => decide (save_freq ≠ 0 ∧ j % save_freq = 0))).map
            FSEvent.saveEpochModel := by
  obtain ⟨h1, h2, h3, h4, h5⟩ := fitLoop_good cfg dataset vds save_freq pd
    hpd hds hv n_epochs 1 ⟨tr, net, none, none, none, [], [], none⟩ rfl hsched
  simp only [Model.fit_dataset, h1]
  simp only [h5, List.nil_append,
    runTrace_filter_epochsave cfg dataset vds save_freq pd]

/-- Witness for C7: the theorem applied to a concrete 12-epoch run with
`save_freq = 5` and to one with `save_freq = 0`, together with concrete
evaluations of the specification side: with `save_freq = 5`, `n_epochs = 12`
the numbered checkpoints are exactly folders 5 and 10; with a falsy
`save_freq` there are none. -/
theorem fit_dataset_numbered_checkpoints_witness :
    (Model.fit_dataset cfg0 trNoSched net0 datasetU 12 (some [()]) 5
      none).events.filter isEpochSave =
        ((List.range' 1 12).filter
          (fun j => decide ((5 : ℕ) ≠ 0 ∧ j % 5 = 0))).map
            FSEvent.saveEpochModel ∧
    ((List.range' 1 12).filter
      (fun j => decide ((5 : ℕ) ≠ 0 ∧ j % 5 = 0))).map
        FSEvent.saveEpochModel =
      [FSEvent.saveEpochModel 5, FSEvent.saveEpochModel 10] ∧
    (Model.fit_dataset cfg0 trNoSched net0 datasetU 12 (some [()]) 0
      none).events.filter isEpochSave =
        ((List.range' 1 12).filter
          (fun j => decide ((0 : ℕ) ≠ 0 ∧ j % 0 = 0))).map
            FSEvent.saveEpochModel ∧
    ((List.range' 1 12).filter
      (fun j => decide ((0 : ℕ) ≠ 0 ∧ j % 0 = 0))).map
        FSEvent.saveEpochModel = [] :=
  ⟨fit_dataset_numbered_checkpoints cfg0 trNoSched net0 datasetU 12 [()] 5
      none rfl (fun e => by simp [datasetU]) (by simp) trivial,
    by decide,
    fit_dataset_numbered_checkpoints cfg0 trNoSched net0 datasetU 12 [()] 0
      none rfl (fun e => by simp [datasetU]) (by simp) trivial,
    by decide⟩

/-- C9 amended: the Trainer's own fields are mutated at construction and by
exactly one public operation: `fit_dataset`, which, when it completes
without an exception, stores the run's logger in the `logger` attribute
(line 153) and changes nothing else; when the run raises, the fields are
untouched.  The other public operations (`fit_epoch`, `val_epoch`,
`predict_dataset`, `predict_batch`) contain no assignment to the trainer
object and are embedded without access to `TrainerFields` at all. -/
theorem fit_dataset_changes_only_the_logger_attribute {β : Type}
    (cfg : TrainerCfg β) (tr : TrainerFields) (net : Network)
    (dataset : ℕ → List β) (n_epochs : ℕ) (val_dataset : Option (List β))
    (save_freq : ℕ) (pd : Option (List PredSample)) :
    (Model.fit_dataset cfg tr net dataset n_epochs val_dataset save_freq
      pd).tr =
      if (Model.fit_dataset cfg tr net dataset n_epochs val_dataset
          save_freq pd).err.isSome then tr
      else { tr with
        logger := some (Model.fit_dataset cfg tr net dataset n_epochs
          val_dataset save_freq pd).logger } := by
  have htr := fitLoop_tr cfg dataset val_dataset save_freq pd n_epochs 1
    ⟨tr, net, none, none, none, [], [], none⟩
  simp only [Model.fit_dataset]
  cases herr : (fitLoop cfg dataset val_dataset save_freq pd n_epochs 1
      ⟨tr, net, none, none, none, [], [], none⟩).err with
  | none => simp [herr, htr]
  | some e => simp [herr, htr]
